import Mathlib

/-!
Verification development for the `ml-driver` repository: a Python client
that drives Firefox ML/translation features over a remote-control session.

The repository has two implementations of the client:
* `src/src/firefox_inference/__init__.py` (the packaged module), embedded
  below in namespace `FirefoxInference`;
* `src/script.py` (the standalone script), embedded in namespace `Script`.

Python values exchanged over the protocol are JSON-shaped; we model them
with the `Value` inductive together with Python truthiness, `dict.get`,
`dict[...]` indexing, dict update and f-string rendering.  Raised Python
exceptions are modelled with `PyError` and `Except`.
-/

/-- JSON-compatible Python values exchanged over the remote protocol. -/
inductive Value where
  | null
  | bool (b : Bool)
  | num (n : Int)
  | str (s : String)
  | list (xs : List Value)
  | dict (entries : List (String × Value))
deriving Repr

/-- Python exceptions that the embedded code can raise. -/
inductive PyError where
  | runtimeError (msg : String)
  | attributeError (msg : String)
  | keyError (key : String)
  | typeError (msg : String)
  | fileNotFoundError (msg : String)
  | assertionError (msg : String)
deriving Repr, DecidableEq

/-- Python truthiness of a value (`bool(v)`). -/
def pyTruthy : Value → Bool
  | Value.null => false
  | Value.bool b => b
  | Value.num n => n != 0
  | Value.str s => !s.isEmpty
  | Value.list xs => !xs.isEmpty
  | Value.dict es => !es.isEmpty

mutual

/-- Python `repr()` of a value (containers render their elements with `repr`). -/
def pyRepr : Value → String
  | Value.null => "None"
  | Value.bool true => "True"
  | Value.bool false => "False"
  | Value.num n => toString n
  | Value.str s => "\x27" ++ s ++ "\x27"
  | Value.list xs => "[" ++ pyReprList xs ++ "]"
  | Value.dict es => "\x7b" ++ pyReprDict es ++ "\x7d"

/-- Comma-separated `repr`s of list elements. -/
def pyReprList : List Value → String
  | [] => ""
  | [v] => pyRepr v
  | v :: rest => pyRepr v ++ ", " ++ pyReprList rest

/-- Comma-separated `repr`s of dict entries. -/
def pyReprDict : List (String × Value) → String
  | [] => ""
  | [(k, v)] => "\x27" ++ k ++ "\x27" ++ ": " ++ pyRepr v
  | (k, v) :: rest =>
      "\x27" ++ k ++ "\x27" ++ ": " ++ pyRepr v ++ ", " ++ pyReprDict rest

end

/-- Python `str()` of a value, as used by f-string interpolation. -/
def pyStr : Value → String
  | Value.str s => s
  | v => pyRepr v

/-- Python `d.get(key)`: `None` when the key is absent; raises
`AttributeError` when the receiver is not a dict. -/
def dictGet (v : Value) (key : String) : Except PyError Value :=
  match v with
  | Value.dict es => Except.ok ((es.lookup key).getD Value.null)
  | Value.null => Except.error (PyError.attributeError "NoneType object has no attribute get")
  | Value.bool _ => Except.error (PyError.attributeError "bool object has no attribute get")
  | Value.num _ => Except.error (PyError.attributeError "int object has no attribute get")
  | Value.str _ => Except.error (PyError.attributeError "str object has no attribute get")
  | Value.list _ => Except.error (PyError.attributeError "list object has no attribute get")

/-- Python `d[key]` on a dict: raises `KeyError` when the key is absent. -/
def dictIndex (v : Value) (key : String) : Except PyError Value :=
  match v with
  | Value.dict es =>
      match es.lookup key with
      | some r => Except.ok r
      | none => Except.error (PyError.keyError key)
  | _ => Except.error (PyError.typeError "object is not subscriptable")

/-- Python `v == s` for a string literal `s`: `False` whenever `v` is not a string. -/
def pyEqStr (v : Value) (s : String) : Bool :=
  match v with
  | Value.str a => a == s
  | _ => false

/-- Python `d[k] = v` on an association-list model of a dict: overwrite the
value in place when the key is present, append the pair otherwise. -/
def setKey : List (String × Value) → String → Value → List (String × Value)
  | [], k, v => [(k, v)]
  | (k1, v1) :: rest, k, v =>
      if k1 == k then (k1, v) :: rest else (k1, v1) :: setKey rest k v

/-- Python `base.update(upd)`: set every entry of `upd` into `base` in order. -/
def dictUpdate (base upd : List (String × Value)) : List (String × Value) :=
  upd.foldl (fun acc kv => setKey acc kv.1 kv.2) base

namespace FirefoxInference

/-- `FirefoxInference._run_page_extractor` from
`src/src/firefox_inference/__init__.py` (lines 50-63), as a function of the
envelope `response` returned by `execute_async_script`:

    response_name = response and response.get("name")
    if response_name == "success":
        return response["result"]
    if response_name == "error":
        error_details = response.get("error") or \x7b\x7d
        message = error_details.get("message") or response.get("error")
        raise RuntimeError(f"\x7bcommand\x7d failed: \x7bmessage\x7d")
    raise RuntimeError(f"\x7bcommand\x7d failed with no response: \x7bresponse\x7d")
-/
def run_page_extractor (command : String) (response : Value) : Except PyError Value := do
  let response_name ←
    if pyTruthy response then dictGet response "name" else Except.ok response
  if pyEqStr response_name "success" then
    dictIndex response "result"
  else if pyEqStr response_name "error" then do
    let e ← dictGet response "error"
    let error_details := if pyTruthy e then e else Value.dict []
    let m ← dictGet error_details "message"
    let e2 ← dictGet response "error"
    let message := if pyTruthy m then m else e2
    Except.error (PyError.runtimeError (command ++ " failed: " ++ pyStr message))
  else
    Except.error (PyError.runtimeError (command ++ " failed with no response: " ++ pyStr response))

end FirefoxInference

namespace Script

/-- `FirefoxInference._run_page_extractor` from `src/script.py`
(lines 37-50); the Python body is textually identical to the packaged
module's version. -/
def run_page_extractor (command : String) (response : Value) : Except PyError Value := do
  let response_name ←
    if pyTruthy response then dictGet response "name" else Except.ok response
  if pyEqStr response_name "success" then
    dictIndex response "result"
  else if pyEqStr response_name "error" then do
    let e ← dictGet response "error"
    let error_details := if pyTruthy e then e else Value.dict []
    let m ← dictGet error_details "message"
    let e2 ← dictGet response "error"
    let message := if pyTruthy m then m else e2
    Except.error (PyError.runtimeError (command ++ " failed: " ++ pyStr message))
  else
    Except.error (PyError.runtimeError (command ++ " failed with no response: " ++ pyStr response))

end Script

/-- Observable browser-affecting actions performed while setting up the driver. -/
inductive DriverAction where
  | checkBinaryExists (p : String)
  | launchBrowser
  | navigate (url : String)
deriving Repr, DecidableEq

/-- The configuration handed to `webdriver.Firefox(options=..., service=...)`. -/
structure DriverHandle where
  args : List String
  binaryLocation : Option String
  logService : Bool
  prefs : List (String × Value)
deriving Repr

namespace FirefoxInference

/-- The required default preference set of `setup_driver` in
`src/src/firefox_inference/__init__.py` (lines 94-100). -/
def default_prefs : List (String × Value) :=
  [("browser.ml.enable", Value.bool true),
   ("browser.ml.logLevel", Value.str "All"),
   ("browser.translations.enable", Value.bool true),
   ("browser.translations.logLevel", Value.str "All"),
   ("browser.translations.automaticallyPopup", Value.bool false)]

/-- The preference map built by `setup_driver`
(`src/src/firefox_inference/__init__.py` lines 94-105): the defaults,
updated with `ml_prefs` when `ml_prefs` is truthy. -/
def setup_driver_prefs (ml_prefs : Option (List (String × Value))) :
    List (String × Value) :=
  match ml_prefs with
  | none => default_prefs
  | some m => if m.isEmpty then default_prefs else dictUpdate default_prefs m

/-- `FirefoxInference.setup_driver` from
`src/src/firefox_inference/__init__.py` (lines 71-107), instrumented with
the ordered list of browser-affecting actions it performs.  The filesystem
is abstracted by `binExists` (`Path.exists`).  A `FileNotFoundError` is
raised when a binary path is given and does not exist; the browser launch
(`webdriver.Firefox(...)`) is the final statement. -/
def setup_driver (headless : Bool) (firefox_bin : Option String)
    (binExists : String → Bool) (log_firefox : Bool)
    (ml_prefs : Option (List (String × Value))) :
    List DriverAction × Except PyError DriverHandle :=
  let args := ["-remote-allow-system-access"]
  let args := if headless then args ++ ["-headless"] else args
  match firefox_bin with
  | some p =>
      if binExists p then
        ([DriverAction.checkBinaryExists p, DriverAction.launchBrowser],
         Except.ok
           { args := args, binaryLocation := some p, logService := log_firefox,
             prefs := setup_driver_prefs ml_prefs })
      else
        ([DriverAction.checkBinaryExists p],
         Except.error
           (PyError.fileNotFoundError ("Firefox binary not found: " ++ p)))
  | none =>
      ([DriverAction.launchBrowser],
       Except.ok
         { args := args, binaryLocation := none, logService := log_firefox,
           prefs := setup_driver_prefs ml_prefs })

end FirefoxInference

namespace Script

/-- The required default preference set of `setup_driver` in `src/script.py`
(lines 81-84): only the two ML preferences. -/
def default_prefs : List (String × Value) :=
  [("browser.ml.enable", Value.bool true),
   ("browser.ml.logLevel", Value.str "All")]

/-- The preference map built by `setup_driver` in `src/script.py`
(lines 81-89): the two defaults, updated with `ml_prefs` when truthy. -/
def setup_driver_prefs (ml_prefs : Option (List (String × Value))) :
    List (String × Value) :=
  match ml_prefs with
  | none => default_prefs
  | some m => if m.isEmpty then default_prefs else dictUpdate default_prefs m

/-- `FirefoxInference.setup_driver` from `src/script.py` (lines 57-91),
instrumented like the module version.  The missing-binary check is an
`assert`, so it raises `AssertionError`. -/
def setup_driver (headless : Bool) (firefox_bin : Option String)
    (binExists : String → Bool) (log_firefox : Bool)
    (ml_prefs : Option (List (String × Value))) :
    List DriverAction × Except PyError DriverHandle :=
  let args := ["-remote-allow-system-access"]
  let args := if headless then args ++ ["-headless"] else args
  match firefox_bin with
  | some p =>
      if binExists p then
        ([DriverAction.checkBinaryExists p, DriverAction.launchBrowser],
         Except.ok
           { args := args, binaryLocation := some p, logService := log_firefox,
             prefs := setup_driver_prefs ml_prefs })
      else
        ([DriverAction.checkBinaryExists p],
         Except.error
           (PyError.assertionError ("The Firefox binary did not exist: " ++ p)))
  | none =>
      ([DriverAction.launchBrowser],
       Except.ok
         { args := args, binaryLocation := none, logService := log_firefox,
           prefs := setup_driver_prefs ml_prefs })

end Script

/-- Observable actions a `FirefoxInference` method performs against the
browser session: navigation, a fixed sleep, running the privileged runner
script with a command and arguments, quitting. -/
inductive ClientAction where
  | navigate (url : String)
  | sleepSeconds (n : Nat)
  | invokePrivileged (command : String) (cmdArgs : List Value)
  | quitBrowser
deriving Repr

/-- Python `options or \x7b\x7d`: the argument when truthy, else an empty dict. -/
def orEmptyDict (options : Value) : Value :=
  if pyTruthy options then options else Value.dict []

namespace FirefoxInference

/-- Action trace of `_run_page_extractor` (lines 50-52): one
`execute_async_script` of the runner with the command and its arguments. -/
def run_page_extractor_actions (command : String) (cmdArgs : List Value) :
    List ClientAction :=
  [ClientAction.invokePrivileged command cmdArgs]

/-- Action trace of `_extract_after_navigation` (lines 65-69):
`driver.get(url)`, `time.sleep(1)`, then `_run_page_extractor`. -/
def extract_after_navigation_actions (url : String) (command : String)
    (cmdArgs : List Value) : List ClientAction :=
  [ClientAction.navigate url, ClientAction.sleepSeconds 1]
    ++ run_page_extractor_actions command cmdArgs

/-- `get_page_text` (lines 109-113). -/
def get_page_text_actions (url : String) (options : Value) : List ClientAction :=
  extract_after_navigation_actions url "get_page_text" [orEmptyDict options]

/-- `get_reader_mode_content` (lines 115-117). -/
def get_reader_mode_content_actions (url : String) (force : Bool) :
    List ClientAction :=
  extract_after_navigation_actions url "get_reader_mode_content" [Value.bool force]

/-- `get_page_info` (lines 119-123). -/
def get_page_info_actions (url : String) (options : Value) : List ClientAction :=
  extract_after_navigation_actions url "get_page_info" [orEmptyDict options]

/-- `get_selection_text` (lines 125-127). -/
def get_selection_text_actions (url : String) : List ClientAction :=
  extract_after_navigation_actions url "get_selection_text" []

/-- `get_headless_page_text` (lines 129-133): no navigation, the URL is a
command argument. -/
def get_headless_page_text_actions (url : String) (options : Value) :
    List ClientAction :=
  run_page_extractor_actions "get_headless_page_text"
    [Value.str url, orEmptyDict options]

/-- `create_ml_engine` (lines 135-137). -/
def create_ml_engine_actions (options : Value) : List ClientAction :=
  run_page_extractor_actions "create_ml_engine" [options]

/-- The request dict built by `run_ml_engine` (lines 147-149):
`request = \x7b"args": args\x7d; if options: request["options"] = options`. -/
def run_ml_engine_request (args : List Value) (options : Value) : Value :=
  let request := [("args", Value.list args)]
  let request := if pyTruthy options then setKey request "options" options else request
  Value.dict request

/-- `run_ml_engine` (lines 139-150). -/
def run_ml_engine_actions (engine_id : String) (args : List Value)
    (options : Value) : List ClientAction :=
  run_page_extractor_actions "run_ml_engine"
    [Value.str engine_id, run_ml_engine_request args options]

/-- `destroy_ml_engine` (lines 152-158). -/
def destroy_ml_engine_actions (engine_id : String) (shutdown : Bool) :
    List ClientAction :=
  run_page_extractor_actions "destroy_ml_engine"
    [Value.str engine_id, Value.dict [("shutdown", Value.bool shutdown)]]

/-- `create_translations_session` (lines 160-164). -/
def create_translations_session_actions (language_pair : Value) :
    List ClientAction :=
  run_page_extractor_actions "create_translations_session"
    [Value.dict [("languagePair", language_pair)]]

/-- `run_translations_session` (lines 166-171). -/
def run_translations_session_actions (session_id : String) (text : String)
    (is_html : Bool) : List ClientAction :=
  run_page_extractor_actions "run_translations_session"
    [Value.str session_id,
     Value.dict [("text", Value.str text), ("isHTML", Value.bool is_html)]]

/-- `destroy_translations_session` (lines 173-180). -/
def destroy_translations_session_actions (session_id : String)
    (discard_translations : Bool) : List ClientAction :=
  run_page_extractor_actions "destroy_translations_session"
    [Value.str session_id,
     Value.dict [("discardTranslations", Value.bool discard_translations)]]

/-- The fields of a constructed `FirefoxInference` instance
(`src/src/firefox_inference/__init__.py` lines 31-32): the webdriver and
the runner script text, assigned in `__init__` (lines 45-48). -/
structure State where
  driver : DriverHandle
  runner_js : String

/-- One invocation of a public `FirefoxInference` method. -/
inductive ClientOp where
  | get_page_text (url : String) (options : Value)
  | get_reader_mode_content (url : String) (force : Bool)
  | get_page_info (url : String) (options : Value)
  | get_selection_text (url : String)
  | get_headless_page_text (url : String) (options : Value)
  | create_ml_engine (options : Value)
  | run_ml_engine (engine_id : String) (args : List Value) (options : Value)
  | destroy_ml_engine (engine_id : String) (shutdown : Bool)
  | create_translations_session (language_pair : Value)
  | run_translations_session (session_id : String) (text : String) (is_html : Bool)
  | destroy_translations_session (session_id : String) (discard_translations : Bool)
  | quit

/-- Effect of one public method on the instance fields, paired with the
session actions it performs.  Transcribed from lines 109-184: no method
body contains an assignment to `self.driver` or `self.runner_js`, so each
returns the state unchanged. -/
def applyOp (s : State) (op : ClientOp) : State × List ClientAction :=
  match op with
  | ClientOp.get_page_text url options => (s, get_page_text_actions url options)
  | ClientOp.get_reader_mode_content url force =>
      (s, get_reader_mode_content_actions url force)
  | ClientOp.get_page_info url options => (s, get_page_info_actions url options)
  | ClientOp.get_selection_text url => (s, get_selection_text_actions url)
  | ClientOp.get_headless_page_text url options =>
      (s, get_headless_page_text_actions url options)
  | ClientOp.create_ml_engine options => (s, create_ml_engine_actions options)
  | ClientOp.run_ml_engine engine_id args options =>
      (s, run_ml_engine_actions engine_id args options)
  | ClientOp.destroy_ml_engine engine_id shutdown =>
      (s, destroy_ml_engine_actions engine_id shutdown)
  | ClientOp.create_translations_session language_pair =>
      (s, create_translations_session_actions language_pair)
  | ClientOp.run_translations_session session_id text is_html =>
      (s, run_translations_session_actions session_id text is_html)
  | ClientOp.destroy_translations_session session_id discard_translations =>
      (s, destroy_translations_session_actions session_id discard_translations)
  | ClientOp.quit => (s, [ClientAction.quitBrowser])

/-- Fold a sequence of public method invocations over the instance state. -/
def runOps (s : State) (ops : List ClientOp) : State :=
  ops.foldl (fun st op => (applyOp st op).1) s

end FirefoxInference

/-- First positional command argument of a trace consisting of a single
privileged invocation. -/
def firstCmdArg : List ClientAction → Option Value
  | [ClientAction.invokePrivileged _ (a :: _)] => some a
  | _ => none

/-!
## Association-list lemmas

Facts about `setKey`/`dictUpdate` (the embedding of Python dict item
assignment and `dict.update`) needed for the preference-merging claims.
-/

theorem lookup_setKey_self (d : List (String × Value)) (k : String) (v : Value) :
    (setKey d k v).lookup k = some v := by
  induction d with
  | nil => simp [setKey]
  | cons kv rest ih =>
      obtain ⟨k1, v1⟩ := kv
      by_cases h : k1 = k
      · subst h; simp [setKey]
      · have hb : (k1 == k) = false := beq_eq_false_iff_ne.mpr h
        have hb2 : (k == k1) = false := beq_eq_false_iff_ne.mpr (Ne.symm h)
        simp [setKey, List.lookup, hb, hb2, ih]

theorem lookup_setKey_ne (d : List (String × Value)) (k k2 : String) (v : Value)
    (h : k2 ≠ k) : (setKey d k v).lookup k2 = d.lookup k2 := by
  induction d with
  | nil => simp [setKey, List.lookup, beq_eq_false_iff_ne.mpr h]
  | cons kv rest ih =>
      obtain ⟨k1, v1⟩ := kv
      by_cases h1 : k1 = k
      · subst h1
        have hb : (k2 == k1) = false := beq_eq_false_iff_ne.mpr h
        simp [setKey, List.lookup, hb]
      · have hs : setKey ((k1, v1) :: rest) k v = (k1, v1) :: setKey rest k v := by
          simp [setKey, beq_eq_false_iff_ne.mpr h1]
        rw [hs]
        cases hc : (k2 == k1) <;> simp [List.lookup, hc, ih]

theorem lookup_none_not_mem_keys (upd : List (String × Value)) (k : String)
    (h : upd.lookup k = none) : k ∉ upd.map Prod.fst := by
  induction upd with
  | nil => simp
  | cons kv rest ih =>
      obtain ⟨k1, v1⟩ := kv
      by_cases hk : k = k1
      · subst hk; simp [List.lookup] at h
      · have h2 : rest.lookup k = none := by
          simpa [List.lookup, beq_eq_false_iff_ne.mpr hk] using h
        simp [hk, ih h2]

theorem lookup_dictUpdate_not_mem (base upd : List (String × Value)) (k : String)
    (h : k ∉ upd.map Prod.fst) :
    (dictUpdate base upd).lookup k = base.lookup k := by
  induction upd generalizing base with
  | nil => rfl
  | cons kv rest ih =>
      obtain ⟨k1, v1⟩ := kv
      simp only [List.map_cons, List.mem_cons, not_or] at h
      have hstep : dictUpdate base ((k1, v1) :: rest)
          = dictUpdate (setKey base k1 v1) rest := rfl
      rw [hstep, ih _ h.2, lookup_setKey_ne _ _ _ _ h.1]

theorem lookup_dictUpdate_of_lookup (base upd : List (String × Value))
    (k : String) (v : Value) (hnd : (upd.map Prod.fst).Nodup)
    (h : upd.lookup k = some v) :
    (dictUpdate base upd).lookup k = some v := by
  induction upd generalizing base with
  | nil => simp [List.lookup] at h
  | cons kv rest ih =>
      obtain ⟨k1, v1⟩ := kv
      have hstep : dictUpdate base ((k1, v1) :: rest)
          = dictUpdate (setKey base k1 v1) rest := rfl
      rw [hstep]
      rw [List.map_cons, List.nodup_cons] at hnd
      obtain ⟨hk1, hrest⟩ := hnd
      by_cases hk : k = k1
      · subst hk
        have hv : v1 = v := by simpa [List.lookup] using h
        subst hv
        rw [lookup_dictUpdate_not_mem _ _ _ hk1, lookup_setKey_self]
      · have h2 : rest.lookup k = some v := by
          simpa [List.lookup, beq_eq_false_iff_ne.mpr hk] using h
        exact ih _ hrest h2

theorem lookup_module_default_prefs (k : String) (v : Value)
    (h : (k, v) ∈ FirefoxInference.default_prefs) :
    FirefoxInference.default_prefs.lookup k = some v := by
  simp [FirefoxInference.default_prefs] at h
  rcases h with ⟨rfl, rfl⟩ | ⟨rfl, rfl⟩ | ⟨rfl, rfl⟩ | ⟨rfl, rfl⟩ | ⟨rfl, rfl⟩ <;> rfl

theorem lookup_script_default_prefs (k : String) (v : Value)
    (h : (k, v) ∈ Script.default_prefs) :
    Script.default_prefs.lookup k = some v := by
  simp [Script.default_prefs] at h
  rcases h with ⟨rfl, rfl⟩ | ⟨rfl, rfl⟩ <;> rfl

theorem pyEqStr_eq_false_of_ne (v : Value) (s : String) (h : v ≠ Value.str s) :
    pyEqStr v s = false := by
  cases v with
  | str a =>
      have ha : a ≠ s := by intro hh; exact h (by rw [hh])
      simp [pyEqStr, ha]
  | null => rfl
  | bool b => rfl
  | num n => rfl
  | list xs => rfl
  | dict es => rfl

/-!
## Claim theorems
-/

/-- Claim C1: for every supported command and every response envelope whose
name tag equals "success", the envelope-unwrapping operation
(`_run_page_extractor`) returns exactly the value of the envelope result
field and raises no error. -/
theorem success_envelope_returns_result (command : String)
    (es : List (String × Value)) (r : Value)
    (hname : es.lookup "name" = some (Value.str "success"))
    (hres : es.lookup "result" = some r) :
    FirefoxInference.run_page_extractor command (Value.dict es) = Except.ok r := by
  cases es with
  | nil => simp [List.lookup] at hname
  | cons hd tl =>
      unfold FirefoxInference.run_page_extractor
      simp [pyTruthy, dictGet, hname, pyEqStr, dictIndex, hres,
        Bind.bind, Except.bind]

/-- Witness for C1 at a concrete success envelope. -/
theorem success_envelope_returns_result_witness :
    FirefoxInference.run_page_extractor "get_page_text"
      (Value.dict [("name", Value.str "success"), ("result", Value.num 7)])
      = Except.ok (Value.num 7) :=
  success_envelope_returns_result "get_page_text"
    [("name", Value.str "success"), ("result", Value.num 7)] (Value.num 7)
    (by rfl) (by rfl)

/-- Claim C10: when the name tag equals "success" but the envelope has no
"result" key, `_run_page_extractor` raises a key-lookup failure instead of
returning a value. -/
theorem success_envelope_missing_result_raises (command : String)
    (es : List (String × Value))
    (hname : es.lookup "name" = some (Value.str "success"))
    (hres : es.lookup "result" = none) :
    FirefoxInference.run_page_extractor command (Value.dict es)
      = Except.error (PyError.keyError "result") := by
  cases es with
  | nil => simp [List.lookup] at hname
  | cons hd tl =>
      unfold FirefoxInference.run_page_extractor
      simp [pyTruthy, dictGet, hname, pyEqStr, dictIndex, hres,
        Bind.bind, Except.bind]

/-- Witness for C10 at a concrete result-less success envelope. -/
theorem success_envelope_missing_result_raises_witness :
    FirefoxInference.run_page_extractor "get_selection_text"
      (Value.dict [("name", Value.str "success")])
      = Except.error (PyError.keyError "result") :=
  success_envelope_missing_result_raises "get_selection_text"
    [("name", Value.str "success")] (by rfl) (by rfl)

/-- Claim C3: for every command, a response that is absent (falsy) or a
mapping whose name tag is neither "success" nor "error" makes
`_run_page_extractor` raise the protocol-level RuntimeError and never
return a value. -/
theorem unrecognized_envelope_raises (command : String) (response : Value)
    (h : pyTruthy response = false ∨
      ∃ es, response = Value.dict es ∧
        (es.lookup "name").getD Value.null ≠ Value.str "success" ∧
        (es.lookup "name").getD Value.null ≠ Value.str "error") :
    FirefoxInference.run_page_extractor command response
      = Except.error (PyError.runtimeError
          (command ++ " failed with no response: " ++ pyStr response)) := by
  rcases h with hf | ⟨es, rfl, h1, h2⟩
  · cases response with
    | null => rfl
    | bool b =>
        have hb : b = false := by simpa [pyTruthy] using hf
        subst hb; rfl
    | num n =>
        have hn : n = 0 := by simpa [pyTruthy] using hf
        subst hn; rfl
    | str a =>
        have hae : a.isEmpty = true := by simpa [pyTruthy] using hf
        have ha : a = "" := (String.isEmpty_iff a).mp hae
        subst ha; rfl
    | list xs =>
        have hx : xs = [] := by simpa [pyTruthy] using hf
        subst hx; rfl
    | dict es =>
        have he : es = [] := by simpa [pyTruthy] using hf
        subst he; rfl
  · cases es with
    | nil => rfl
    | cons hd tl =>
        unfold FirefoxInference.run_page_extractor
        simp [pyTruthy, dictGet, Bind.bind, Except.bind,
          pyEqStr_eq_false_of_ne _ _ h1, pyEqStr_eq_false_of_ne _ _ h2]

/-- Witness for C3 at a concrete absent response (None). -/
theorem unrecognized_envelope_raises_witness :
    pyTruthy Value.null = false ∧
    FirefoxInference.run_page_extractor "get_page_text" Value.null
      = Except.error (PyError.runtimeError
          "get_page_text failed with no response: None") :=
  ⟨rfl, unrecognized_envelope_raises "get_page_text" Value.null (Or.inl rfl)⟩

/-- Claim C2 (code bug): on an error envelope whose error payload is a
non-empty string — a shape the response-envelope contract allows — both
implementations of `_run_page_extractor` crash with `AttributeError`
(`error_details` is the string itself, and strings have no `get` method),
instead of raising the command error carrying the embedded message.  With
a mapping payload the embedded message is preserved verbatim. -/
theorem error_string_payload_attribute_error :
    FirefoxInference.run_page_extractor "run_ml_engine"
        (Value.dict [("name", Value.str "error"), ("error", Value.str "boom")])
      = Except.error (PyError.attributeError "str object has no attribute get")
    ∧ Script.run_page_extractor "run_ml_engine"
        (Value.dict [("name", Value.str "error"), ("error", Value.str "boom")])
      = Except.error (PyError.attributeError "str object has no attribute get")
    ∧ FirefoxInference.run_page_extractor "run_ml_engine"
        (Value.dict [("name", Value.str "error"),
          ("error", Value.dict [("message", Value.str "boom")])])
      = Except.error (PyError.runtimeError "run_ml_engine failed: boom") :=
  ⟨rfl, rfl, rfl⟩

/-- Claim C8: the two implementations of the envelope-unwrapping operation
(in `src/script.py` and in `src/src/firefox_inference/__init__.py`) are
equivalent: on every command name and response envelope they return the
same value or raise the same error. -/
theorem run_page_extractor_implementations_agree (command : String)
    (response : Value) :
    Script.run_page_extractor command response
      = FirefoxInference.run_page_extractor command response := rfl

/-- Counterexample for claim C4 as stated: a session constructed through
`src/script.py` with no caller-supplied flags does not contain the
translations defaults, so it is not true that every session construction
contains all five required defaults. -/
theorem script_prefs_missing_translations_default :
    (Script.setup_driver_prefs none).lookup "browser.translations.enable" = none
    ∧ ¬ (∀ k v, (k, v) ∈ FirefoxInference.default_prefs →
          (Script.setup_driver_prefs none).lookup k = some v) := by
  constructor
  · rfl
  · intro hall
    have h := hall "browser.translations.enable" (Value.bool true)
      (by simp [FirefoxInference.default_prefs])
    simp [Script.setup_driver_prefs, Script.default_prefs, List.lookup] at h

/-- Claim C4, amended: the packaged module `setup_driver` hands the browser
a preference map containing all five required defaults for every key the
caller did not supply and the caller value for every supplied key;
`src/script.py` merges the caller flags over only its two ML defaults
(`browser.ml.enable`, `browser.ml.logLevel`) in the same way. -/
theorem setup_driver_prefs_merge (mp : List (String × Value))
    (hnd : (mp.map Prod.fst).Nodup) (k : String) (v : Value) :
    ((k, v) ∈ FirefoxInference.default_prefs → mp.lookup k = none →
        (FirefoxInference.setup_driver_prefs (some mp)).lookup k = some v)
    ∧ (mp.lookup k = some v →
        (FirefoxInference.setup_driver_prefs (some mp)).lookup k = some v)
    ∧ ((k, v) ∈ FirefoxInference.default_prefs →
        (FirefoxInference.setup_driver_prefs none).lookup k = some v)
    ∧ ((k, v) ∈ Script.default_prefs → mp.lookup k = none →
        (Script.setup_driver_prefs (some mp)).lookup k = some v)
    ∧ (mp.lookup k = some v →
        (Script.setup_driver_prefs (some mp)).lookup k = some v)
    ∧ ((k, v) ∈ Script.default_prefs →
        (Script.setup_driver_prefs none).lookup k = some v) := by
  refine ⟨?_, ?_, ?_, ?_, ?_, ?_⟩
  · intro hmem hnone
    cases mp with
    | nil => exact lookup_module_default_prefs k v hmem
    | cons hd tl =>
        have hkeys := lookup_none_not_mem_keys _ k hnone
        have hu : FirefoxInference.setup_driver_prefs (some (hd :: tl))
            = dictUpdate FirefoxInference.default_prefs (hd :: tl) := rfl
        rw [hu, lookup_dictUpdate_not_mem _ _ _ hkeys]
        exact lookup_module_default_prefs k v hmem
  · intro hsome
    cases mp with
    | nil => simp [List.lookup] at hsome
    | cons hd tl =>
        have hu : FirefoxInference.setup_driver_prefs (some (hd :: tl))
            = dictUpdate FirefoxInference.default_prefs (hd :: tl) := rfl
        rw [hu]
        exact lookup_dictUpdate_of_lookup _ _ _ _ hnd hsome
  · intro hmem
    exact lookup_module_default_prefs k v hmem
  · intro hmem hnone
    cases mp with
    | nil => exact lookup_script_default_prefs k v hmem
    | cons hd tl =>
        have hkeys := lookup_none_not_mem_keys _ k hnone
        have hu : Script.setup_driver_prefs (some (hd :: tl))
            = dictUpdate Script.default_prefs (hd :: tl) := rfl
        rw [hu, lookup_dictUpdate_not_mem _ _ _ hkeys]
        exact lookup_script_default_prefs k v hmem
  · intro hsome
    cases mp with
    | nil => simp [List.lookup] at hsome
    | cons hd tl =>
        have hu : Script.setup_driver_prefs (some (hd :: tl))
            = dictUpdate Script.default_prefs (hd :: tl) := rfl
        rw [hu]
        exact lookup_dictUpdate_of_lookup _ _ _ _ hnd hsome
  · intro hmem
    exact lookup_script_default_prefs k v hmem

/-- Witness for the amended C4: a caller-supplied value overrides the
module default, and an unsupplied default key keeps its default value. -/
theorem setup_driver_prefs_merge_witness :
    (FirefoxInference.setup_driver_prefs
        (some [("browser.ml.enable", Value.bool false)])).lookup "browser.ml.enable"
      = some (Value.bool false)
    ∧ (FirefoxInference.setup_driver_prefs
        (some [("browser.ml.enable", Value.bool false)])).lookup
          "browser.translations.automaticallyPopup"
      = some (Value.bool false) :=
  ⟨(setup_driver_prefs_merge [("browser.ml.enable", Value.bool false)]
      (by simp) "browser.ml.enable" (Value.bool false)).2.1 (by rfl),
   (setup_driver_prefs_merge [("browser.ml.enable", Value.bool false)]
      (by simp) "browser.translations.automaticallyPopup" (Value.bool false)).1
      (by simp [FirefoxInference.default_prefs]) (by rfl)⟩

/-- Claim C5: a specified binary path that does not exist makes both
`setup_driver` implementations raise a startup error with no browser
launch and no navigation; an unspecified or existing binary path raises no
such error. -/
theorem setup_driver_missing_binary (headless log_firefox : Bool) (p : String)
    (binExists : String → Bool)
    (ml_prefs : Option (List (String × Value))) :
    (binExists p = false →
      FirefoxInference.setup_driver headless (some p) binExists log_firefox ml_prefs
          = ([DriverAction.checkBinaryExists p],
             Except.error (PyError.fileNotFoundError
               ("Firefox binary not found: " ++ p)))
        ∧ Script.setup_driver headless (some p) binExists log_firefox ml_prefs
          = ([DriverAction.checkBinaryExists p],
             Except.error (PyError.assertionError
               ("The Firefox binary did not exist: " ++ p)))
        ∧ DriverAction.launchBrowser ∉
            (FirefoxInference.setup_driver headless (some p) binExists
              log_firefox ml_prefs).1
        ∧ ∀ u, DriverAction.navigate u ∉
            (FirefoxInference.setup_driver headless (some p) binExists
              log_firefox ml_prefs).1)
    ∧ (binExists p = true →
        (FirefoxInference.setup_driver headless (some p) binExists
            log_firefox ml_prefs).2.isOk = true
        ∧ (Script.setup_driver headless (some p) binExists
            log_firefox ml_prefs).2.isOk = true)
    ∧ (FirefoxInference.setup_driver headless none binExists
        log_firefox ml_prefs).2.isOk = true
    ∧ (Script.setup_driver headless none binExists
        log_firefox ml_prefs).2.isOk = true := by
  refine ⟨?_, ?_, ?_, ?_⟩
  · intro h
    refine ⟨?_, ?_, ?_, ?_⟩
    · simp [FirefoxInference.setup_driver, h]
    · simp [Script.setup_driver, h]
    · simp [FirefoxInference.setup_driver, h]
    · intro u; simp [FirefoxInference.setup_driver, h]
  · intro h
    constructor
    · simp [FirefoxInference.setup_driver, h, Except.isOk, Except.toBool]
    · simp [Script.setup_driver, h, Except.isOk, Except.toBool]
  · simp [FirefoxInference.setup_driver, Except.isOk, Except.toBool]
  · simp [Script.setup_driver, Except.isOk, Except.toBool]

/-- Witness for C5 at a concrete missing binary path. -/
theorem setup_driver_missing_binary_witness :
    FirefoxInference.setup_driver false (some "/missing/firefox")
        (fun _ => false) false none
      = ([DriverAction.checkBinaryExists "/missing/firefox"],
         Except.error (PyError.fileNotFoundError
           "Firefox binary not found: /missing/firefox")) :=
  ((setup_driver_missing_binary false false "/missing/firefox"
      (fun _ => false) none).1 rfl).1

/-- Claim C6: each page-scoped wrapper first navigates to the given URL and
then invokes its privileged command, in that order; each process-scoped
operation invokes its privileged command directly with no navigation
step. -/
theorem wrappers_navigation_composition (url : String) (options : Value)
    (force : Bool) (engine_id session_id text : String) (args : List Value)
    (language_pair : Value) (is_html shutdown discard_translations : Bool) :
    FirefoxInference.get_page_text_actions url options
      = [ClientAction.navigate url, ClientAction.sleepSeconds 1,
         ClientAction.invokePrivileged "get_page_text" [orEmptyDict options]]
    ∧ FirefoxInference.get_reader_mode_content_actions url force
      = [ClientAction.navigate url, ClientAction.sleepSeconds 1,
         ClientAction.invokePrivileged "get_reader_mode_content" [Value.bool force]]
    ∧ FirefoxInference.get_page_info_actions url options
      = [ClientAction.navigate url, ClientAction.sleepSeconds 1,
         ClientAction.invokePrivileged "get_page_info" [orEmptyDict options]]
    ∧ FirefoxInference.get_selection_text_actions url
      = [ClientAction.navigate url, ClientAction.sleepSeconds 1,
         ClientAction.invokePrivileged "get_selection_text" []]
    ∧ FirefoxInference.create_ml_engine_actions options
      = [ClientAction.invokePrivileged "create_ml_engine" [options]]
    ∧ FirefoxInference.run_ml_engine_actions engine_id args options
      = [ClientAction.invokePrivileged "run_ml_engine"
          [Value.str engine_id, FirefoxInference.run_ml_engine_request args options]]
    ∧ FirefoxInference.destroy_ml_engine_actions engine_id shutdown
      = [ClientAction.invokePrivileged "destroy_ml_engine"
          [Value.str engine_id, Value.dict [("shutdown", Value.bool shutdown)]]]
    ∧ FirefoxInference.create_translations_session_actions language_pair
      = [ClientAction.invokePrivileged "create_translations_session"
          [Value.dict [("languagePair", language_pair)]]]
    ∧ FirefoxInference.run_translations_session_actions session_id text is_html
      = [ClientAction.invokePrivileged "run_translations_session"
          [Value.str session_id,
           Value.dict [("text", Value.str text), ("isHTML", Value.bool is_html)]]]
    ∧ FirefoxInference.destroy_translations_session_actions session_id
        discard_translations
      = [ClientAction.invokePrivileged "destroy_translations_session"
          [Value.str session_id,
           Value.dict [("discardTranslations", Value.bool discard_translations)]]]
    ∧ FirefoxInference.get_headless_page_text_actions url options
      = [ClientAction.invokePrivileged "get_headless_page_text"
          [Value.str url, orEmptyDict options]] :=
  ⟨rfl, rfl, rfl, rfl, rfl, rfl, rfl, rfl, rfl, rfl, rfl⟩

/-- Claim C7: the run and destroy operations pass the caller handle
verbatim as the first positional command argument, and the run_ml_engine
request is exactly the args dict when options is falsy and the args plus
options dict otherwise. -/
theorem handles_passed_verbatim (engine_id session_id text : String)
    (args : List Value) (options : Value)
    (shutdown is_html discard_translations : Bool) :
    firstCmdArg (FirefoxInference.run_ml_engine_actions engine_id args options)
      = some (Value.str engine_id)
    ∧ firstCmdArg (FirefoxInference.destroy_ml_engine_actions engine_id shutdown)
      = some (Value.str engine_id)
    ∧ firstCmdArg
        (FirefoxInference.run_translations_session_actions session_id text is_html)
      = some (Value.str session_id)
    ∧ firstCmdArg
        (FirefoxInference.destroy_translations_session_actions session_id
          discard_translations)
      = some (Value.str session_id)
    ∧ (pyTruthy options = false →
        FirefoxInference.run_ml_engine_request args options
          = Value.dict [("args", Value.list args)])
    ∧ (pyTruthy options = true →
        FirefoxInference.run_ml_engine_request args options
          = Value.dict [("args", Value.list args), ("options", options)]) := by
  refine ⟨rfl, rfl, rfl, rfl, ?_, ?_⟩
  · intro h
    simp [FirefoxInference.run_ml_engine_request, h]
  · intro h
    simp [FirefoxInference.run_ml_engine_request, h, setKey]

/-- Witness for C7: the request dict at concrete falsy and truthy options. -/
theorem handles_passed_verbatim_witness :
    FirefoxInference.run_ml_engine_request [Value.str "hello"] Value.null
      = Value.dict [("args", Value.list [Value.str "hello"])]
    ∧ FirefoxInference.run_ml_engine_request [Value.str "hello"]
        (Value.dict [("max_new_tokens", Value.num 1000)])
      = Value.dict [("args", Value.list [Value.str "hello"]),
          ("options", Value.dict [("max_new_tokens", Value.num 1000)])] :=
  ⟨(handles_passed_verbatim "e" "s" "t" [Value.str "hello"] Value.null
      true false true).2.2.2.2.1 rfl,
   (handles_passed_verbatim "e" "s" "t" [Value.str "hello"]
      (Value.dict [("max_new_tokens", Value.num 1000)])
      true false true).2.2.2.2.2 rfl⟩

/-- Claim C9: the session configuration is immutable after construction:
no sequence of public operations changes the `driver` and `runner_js`
fields assigned in `__init__`. -/
theorem session_config_immutable (s : FirefoxInference.State)
    (ops : List FirefoxInference.ClientOp) :
    (FirefoxInference.runOps s ops).driver = s.driver
    ∧ (FirefoxInference.runOps s ops).runner_js = s.runner_js := by
  have h : ∀ (l : List FirefoxInference.ClientOp) (st : FirefoxInference.State),
      FirefoxInference.runOps st l = st := by
    intro l
    induction l with
    | nil => intro st; rfl
    | cons op rest ih =>
        intro st
        have hstep : FirefoxInference.runOps st (op :: rest)
            = FirefoxInference.runOps (FirefoxInference.applyOp st op).1 rest := rfl
        have happ : (FirefoxInference.applyOp st op).1 = st := by
          cases op <;> rfl
        rw [hstep, happ, ih]
  rw [h ops s]
  exact ⟨rfl, rfl⟩
